import Mathlib

/-!
Verification of the DSA-coach browser extension and its Gemini relay backend.

The development shallowly embeds the JavaScript sources:
* `backend-gemini.js` (the relay): prompt templates of `POST /api/analyze`,
  the `extractComplexity` post-processor, and the error classification of the
  catch block;
* `content.js`: `extractProblemData`, `addChatMessage`, `callAI` with its
  mock fallback, and `testBackendConnection`;
* `popup.js`: `addChatMessage`, `saveConversationHistory`,
  `loadConversationHistory`.

Strings are modelled as Lean `String`s (lists of characters); JavaScript
`string.length` / `substring` are modelled at the character level.  The
JavaScript regexes of `extractComplexity` are embedded as deterministic
matchers over `List Char` (each regex used there admits no backtracking
choice, as every quantified class is disjoint from the literal that follows
it); `\s` is modelled by the ASCII whitespace characters.
-/

namespace DSACoach

/-- ASCII whitespace, the fragment of the JavaScript `\s` class that the
embedded texts use. -/
def isBlank (c : Char) : Bool :=
  c == ' ' || c == '\t' || c == '\n' || c == '\r' || c == '\u000b' || c == '\u000c'

/-- Number of leading characters of `l` satisfying `p`. -/
def countWhile (p : Char → Bool) : List Char → Nat
  | [] => 0
  | c :: cs => if p c then countWhile p cs + 1 else 0

/-- Case-insensitive prefix test (`/i` flag). -/
def ciPrefix : List Char → List Char → Bool
  | [], _ => true
  | _ :: _, [] => false
  | a :: as, b :: bs => (a.toLower == b.toLower) && ciPrefix as bs

/-- Case-sensitive prefix test. -/
def litPrefix : List Char → List Char → Bool
  | [], _ => true
  | _ :: _, [] => false
  | a :: as, b :: bs => (a == b) && litPrefix as bs

/-- Substring test on character lists (`String.prototype.includes`). -/
def hasSub (needle : List Char) : List Char → Bool
  | [] => needle.isEmpty
  | c :: rest => litPrefix needle (c :: rest) || hasSub needle rest

/-- `hay.includes(needle)` of JavaScript. -/
def strIncludes (hay needle : String) : Bool :=
  hasSub needle.data hay.data

/-- `String.prototype.toLowerCase` (character-wise). -/
def lowerStr (s : String) : String :=
  ⟨s.data.map Char.toLower⟩

/-- `String.prototype.trim`: strip blanks from both ends. -/
def trimStr (s : String) : String :=
  ⟨((s.data.dropWhile isBlank).reverse.dropWhile isBlank).reverse⟩

/-- `s.substring(0, n)` of JavaScript. -/
def takeStr (n : Nat) (s : String) : String :=
  ⟨s.data.take n⟩

/-- Character length (JavaScript `s.length`, at the character level). -/
def strLen (s : String) : Nat := s.data.length

/-- `Array.prototype.join(sep)` of JavaScript. -/
def joinSep (sep : String) : List String → String
  | [] => ""
  | [x] => x
  | x :: y :: rest => x ++ sep ++ joinSep sep (y :: rest)

/-! ## The relay function `extractComplexity` (backend-gemini.js, lines 151-193)

Each of the six primary regexes and the secondary regex `/O\([^)]+\)/i` is
embedded as a deterministic matcher returning the number of characters the
leftmost-longest match consumes at the head of the input.  Determinism is
sound for these particular regexes: after each greedy quantifier the
following literal cannot match any character the quantified class accepts,
so no backtracking alternative exists. -/

/-- A matcher consumes a prefix of the input and reports its length. -/
def Matcher : Type := List Char → Option Nat

/-- Sequencing of matchers (concatenation of regex fragments). -/
def seqM (a b : Matcher) : Matcher := fun s =>
  (a s).bind fun n => (b (s.drop n)).map (n + ·)

/-- A case-insensitive literal regex fragment. -/
def litCI (lit : List Char) : Matcher := fun s =>
  if ciPrefix lit s then some lit.length else none

/-- The fragment `\s+` (greedy, followed in every use by a non-blank). -/
def blanks1 : Matcher := fun s =>
  let n := countWhile isBlank s
  if n = 0 then none else some n

/-- The fragment `[:\s]*` (greedy, followed in every use by `O`/`o`). -/
def colonBlanks : Matcher := fun s =>
  some (countWhile (fun c => c == ':' || isBlank c) s)

/-- The fragment `[O]\([^)]+\)` under `/i`: an `O(`/`o(` head, one or more
non-`)` characters, and the closing `)`. -/
def oTermLen : List Char → Option Nat
  | c1 :: c2 :: rest =>
    if (c1 == 'O' || c1 == 'o') && c2 == '(' then
      let m := countWhile (fun c => c != ')') rest
      if 1 ≤ m ∧ m < rest.length then some (m + 3) else none
    else none
  | _ => none

/-- `/time\s+complexity[:\s]*([O]\([^)]+\))/gi` (and the `space` variant). -/
def patFull (lit : List Char) : Matcher :=
  seqM (litCI lit) (seqM blanks1 (seqM (litCI ['c','o','m','p','l','e','x','i','t','y'])
    (seqM colonBlanks oTermLen)))

/-- `/time[:\s]*([O]\([^)]+\))/gi` (and the `space` variant). -/
def patShort (lit : List Char) : Matcher :=
  seqM (litCI lit) (seqM colonBlanks oTermLen)

/-- `/([O]\([^)]+\))\s+time/gi` (and the `space` variant). -/
def patBefore (lit : List Char) : Matcher :=
  seqM oTermLen (seqM blanks1 (litCI lit))

/-- Leftmost match of `m` in `s` (`String.prototype.match`, first element):
scan the start positions left to right and return the matched characters. -/
def searchAux (m : Matcher) : List Char → Option (List Char)
  | [] => (m []).map (fun _ => ([] : List Char))
  | c :: rest =>
    match m (c :: rest) with
    | some n => some ((c :: rest).take n)
    | none => searchAux m rest

/-- The secondary regex `/O\([^)]+\)/i` applied to a primary match. -/
def oSearch (s : List Char) : Option (List Char) :=
  searchAux oTermLen s

/-- The ordered pattern list for one field (`timePatterns` / `spacePatterns`). -/
def fieldPatterns (lit : List Char) : List Matcher :=
  [patFull lit, patShort lit, patBefore lit]

/-- The sentinel value, the four characters of `O(?)`. -/
def sentinel : List Char := ['O', '(', '?', ')']

/-- The `for (const pattern of ...)` loop of `extractComplexity`: on a primary
match, run the secondary regex on `match[0]` and `break` if it succeeds. -/
def tryPats : List Matcher → List Char → List Char
  | [], _ => sentinel
  | p :: ps, text =>
    match searchAux p text with
    | some m0 =>
      match oSearch m0 with
      | some o => o
      | none => tryPats ps text
    | none => tryPats ps text

/-- `{time, space}` as produced by the relay. -/
structure Complexity where
  time : String
  space : String
deriving DecidableEq

/-- `extractComplexity` of backend-gemini.js. -/
def extractComplexity (text : String) : Complexity :=
  { time := ⟨tryPats (fieldPatterns ['t','i','m','e']) text.data⟩
    space := ⟨tryPats (fieldPatterns ['s','p','a','c','e']) text.data⟩ }

/-- First pattern of the list with a (leftmost) match in the text. -/
def firstPatternMatch : List Matcher → List Char → Option (List Char)
  | [], _ => none
  | p :: ps, text =>
    match searchAux p text with
    | some m0 => some m0
    | none => firstPatternMatch ps text

/-- Modelled from the spec, for comparison with `tryPats`: try the three patterns in order, and on
the first that matches pull the `O(...)` substring via the secondary regex
and stop; if no pattern matches the field is the sentinel. -/
def specField (ps : List Matcher) (text : List Char) : List Char :=
  match firstPatternMatch ps text with
  | some m0 => (oSearch m0).getD sentinel
  | none => sentinel

/-! ## The relay prompt templates (backend-gemini.js, lines 69-141)

The three template literals of the `approach_analysis`, `code_analysis` and
`chat_followup` branches, split at their interpolation holes. -/

def approachTpl0 : String :=
  "You are an expert DSA coach. Analyze the user\u0027s approach for the following problem.\n\nProblem Title:\n"

def approachTpl1 : String :=
  "\n\nProblem Description (truncated as provided by the client):\n"

def approachTpl2 : String :=
  "\n\nUser Approach:\n"

def approachTpl3a : String :=
  "\n\nOutput a structured, concise response WITHOUT any markdown bullets or asterisks. Use clear section headings and short paragraphs. Include:\n1) Logic Flow: Summarize the exact approach the user is following and whether the reasoning is correct.\n2) Complexity: Time and Space complexities in O-notation with a brief rationale.\n3) Edge Cases: List relevant edge cases for this specific problem and whether the approach passes each; if it fails, state precisely which scenarios fail and why.\n4) Optimization: Concrete, problem-relevant improvements to make the code more efficient (algorithmic ideas, data structures, pruning, or memory reductions). Give actionable next steps.\n5) Next Questions: 2-3 guiding questions tailored to this problem that nudge the user to think deeper without giving a full solution.\n\nBe specific to the problem and the approach, avoid generic advice, and "

/-- The closing line of the approach template, written as a concatenation
exhibiting its no-solution instruction. -/
def approachTpl3 : String :=
  approachTpl3a ++ "do not reveal the full solution" ++ "."

/-- The `approach_analysis` prompt (`description` defaults to the empty string). -/
def approachAnalysisPrompt (title description approach : String) : String :=
  approachTpl0 ++ title ++ approachTpl1 ++ description ++ approachTpl2 ++ approach ++ approachTpl3

/-- The truncation marker appended by the `code_analysis` branch. -/
def truncMarker : String := "\n// ... (code truncated)"

/-- `code.length > 2000 ? code.substring(0, 2000) + marker : code`. -/
def truncatedCode (code : String) : String :=
  if 2000 < strLen code then takeStr 2000 code ++ truncMarker else code

def codeTpl0 : String :=
  "You are a senior DSA mentor. Review the user\u0027s code for the given problem and produce a well-structured response with no markdown bullets or asterisks.\n\nProblem Title:\n"

def codeTpl1 : String :=
  "\n\nProblem Description (truncated as provided by the client):\n"

def codeTpl2 : String :=
  "\n\nUser Code (may be truncated):\n"

def codeTpl3a : String :=
  "\n\nYour response must be concise and structured with these sections:\n1) Logic Flow: Describe the current logical approach the code implements. Assess correctness for this problem.\n2) Complexity: Provide Time and Space complexities in O-notation with a one-sentence justification.\n3) Edge Cases: Enumerate edge cases relevant to this problem and state whether the code currently handles each. If it fails, explain exactly how and why.\n4) Optimization: Provide concrete, problem-specific ways to make the code more efficient or clearer. Include specific data structures or algorithmic changes and a brief rationale.\n5) Next Questions: Ask 2-3 targeted questions to guide the user toward improvements "

def codeTpl3b : String :=
  ".\n\nTailor everything to the provided problem and code. Avoid generic advice and do not use bullet characters."

/-- The tail of the code template, written as a concatenation exhibiting
its no-solution instruction. -/
def codeTpl3 : String :=
  codeTpl3a ++ "without giving a complete solution" ++ codeTpl3b

/-- The `code_analysis` prompt. -/
def codeAnalysisPrompt (title description code : String) : String :=
  codeTpl0 ++ title ++ codeTpl1 ++ description ++ codeTpl2 ++ truncatedCode code ++ codeTpl3

/-- A conversation history entry as kept by both UI controllers. -/
structure ConversationEntry where
  message : String
  sender : String
  complexity : Option Complexity
  timestamp : Nat
deriving DecidableEq

def studentLabel : String := "🎓 Student"

def coachLabel : String := "🤖 Coach"

/-- One line of the chat context:
`sender label : message.substring(0,200)` plus an ellipsis when the
message exceeds 200 characters. -/
def renderHistoryEntry (h : ConversationEntry) : String :=
  (if h.sender = "user" then studentLabel else coachLabel) ++ ": "
    ++ takeStr 200 h.message
    ++ (if 200 < strLen h.message then "..." else "")

/-- `history.slice(-6)`: the most recent 6 entries (all of them when the
list is shorter). -/
def recentWindow (history : List ConversationEntry) : List ConversationEntry :=
  history.drop (history.length - 6)

/-- The rendered window, joined with blank lines. -/
def recentMessages (history : List ConversationEntry) : String :=
  joinSep "\n\n" ((recentWindow history).map renderHistoryEntry)

def chatTpl0 : String :=
  "You are continuing a DSA coaching conversation about: \""

def chatTpl1 : String :=
  "\"\n\n📚 RECENT CONVERSATION:\n"

def chatTpl2 : String :=
  "\n\n🎓 STUDENT\u0027S NEW MESSAGE:\n\""

def chatTpl3a : String :=
  "\"\n\n🤖 YOUR RESPONSE:\nContinue coaching them thoughtfully. Ask probing questions, provide hints, but "

def chatTpl3b : String :=
  ". Help them think through the problem step by step.\n\nFocus on:\n- Understanding their current thinking\n- Identifying gaps in their logic\n- Guiding them toward insights\n- Building their confidence\n\nKeep it conversational and supportive!"

/-- The tail of the chat template, written as a concatenation exhibiting
its no-solution instruction. -/
def chatTpl3 : String :=
  chatTpl3a ++ "avoid giving direct solutions" ++ chatTpl3b

/-- The `chat_followup` prompt. -/
def chatFollowupPrompt (title message : String) (history : List ConversationEntry) : String :=
  chatTpl0 ++ title ++ chatTpl1 ++ recentMessages history ++ chatTpl2 ++ message ++ chatTpl3

/-! ## The relay upstream-error classification (backend-gemini.js, 204-226) -/

/-- The JSON error reply: HTTP status plus the `error`, `message` and
optional `fallback` fields. -/
structure ErrorResponse where
  status : Nat
  error : String
  message : String
  fallback : Option String
deriving DecidableEq

def apiKeyRemediation : String := "Please check your GEMINI_API_KEY in the .env file"

def quotaMessage : String := "Free tier: 15 requests/minute. Please wait a moment."

def quotaFallback : String :=
  "I\u0027m temporarily unavailable due to rate limits. Can you describe your approach step by step while we wait?"

def techFallback : String :=
  "I\u0027m having technical difficulties. Try describing your approach in more detail - what data structure are you considering?"

/-- The catch block of `POST /api/analyze`, classifying the upstream error
by substrings of its message. -/
def classifyUpstreamError (msg : String) : ErrorResponse :=
  if strIncludes msg "API key" then
    ⟨401, "Invalid API key", apiKeyRemediation, none⟩
  else if strIncludes msg "quota" then
    ⟨429, "Rate limit exceeded", quotaMessage, some quotaFallback⟩
  else
    ⟨500, "AI service error", msg, some techFallback⟩

/-! ## The page scraper (content.js, `extractProblemData`, lines 81-156)

The DOM is abstracted by its two query operations and the page URL; an
exception anywhere during extraction is modelled by the page access failing
as a whole (`Except.error`), which the catch branch turns into the
diagnostic placeholder context. -/

structure Element where
  textContent : String
deriving DecidableEq

structure Dom where
  query : String → Option Element
  queryAll : String → List Element
  href : String

structure ProblemContext where
  title : String
  description : String
  examples : List String
  constraints : List String
  url : String
  timestamp : Nat
deriving DecidableEq

/-- One character of `sanitizeText`.  The five sequential global `replace`
calls equal this single character-wise pass because no replacement output
contains a character some later pass rewrites. -/
def sanitizeChar (c : Char) : List Char :=
  if c = '&' then "&amp;".data
  else if c = '<' then "&lt;".data
  else if c = '>' then "&gt;".data
  else if c = '\u0022' then "&quot;".data
  else if c = '\u0027' then "&#x27;".data
  else [c]

/-- `sanitizeText` of content.js: entity-encode, then trim. -/
def sanitizeText (s : String) : String :=
  trimStr ⟨(s.data.map sanitizeChar).flatten⟩

def titleSelectors : List String :=
  ["[data-cy=\"question-title\"]", "h1[data-cy=\"question-title\"]", ".css-v3d350", "h1",
   ".question-title"]

def descSelectors : List String :=
  ["[data-key=\"description-content\"]", ".content__u3I1", ".question-content",
   "[data-track-load=\"description_content\"]"]

/-- The selector cascade: `querySelector` each candidate in turn and break
on the first whose trimmed text is non-empty; the loop variable keeps the
last queried value when no candidate qualifies. -/
def selectLoop (dom : Dom) : List String → Option Element
  | [] => none
  | [s] => dom.query s
  | s :: s2 :: rest =>
    match dom.query s with
    | some e => if trimStr e.textContent ≠ "" then some e else selectLoop dom (s2 :: rest)
    | none => selectLoop dom (s2 :: rest)

/-- The example markers: `Input:`, `Example` or `Output:`. -/
def exampleMarkerB (t : String) : Bool :=
  strIncludes t "Input:" || strIncludes t "Example" || strIncludes t "Output:"

/-- The example filter of the code: a marker, and trimmed length strictly
between 10 and 500. -/
def exampleQualB (t : String) : Bool :=
  exampleMarkerB t && decide (10 < strLen t) && decide (strLen t < 500)

/-- Splits at line terminators (`\n`, `\r`), for the dot of `/\d+.*\d+/`
which does not cross line terminators. -/
def splitLines : List Char → List (List Char)
  | [] => [[]]
  | c :: rest =>
    let r := splitLines rest
    if c = '\n' ∨ c = '\r' then [] :: r
    else
      match r with
      | [] => [[c]]
      | h :: t => (c :: h) :: t

/-- `text.match(/\d+.*\d+/)` is non-null iff some line holds two digits. -/
def twoDigitsOneLine (t : String) : Bool :=
  (splitLines t.data).any (fun l => 2 ≤ (l.filter Char.isDigit).length)

/-- The constraint filter of the code.  The first marker is the literal
three-character sequence present in the source file (mojibake of a
less-or-equal sign). -/
def constraintQualB (t : String) : Bool :=
  (strIncludes t "â‰¤" || strIncludes t "<=" || strIncludes t "constraints"
      || twoDigitsOneLine t || strIncludes t "length")
    && decide (strLen t < 200) && !(strIncludes t "Example")

/-- The body of `extractProblemData` (the `try` part). -/
def extractCore (dom : Dom) (now : Nat) : ProblemContext :=
  let titleEl := selectLoop dom titleSelectors
  let descEl := selectLoop dom descSelectors
  let exampleTexts := (dom.queryAll "pre, .example").map (fun e => trimStr e.textContent)
  let examples := (exampleTexts.filter exampleQualB).map sanitizeText
  let consTexts :=
    (dom.queryAll "ul li, .content__u3I1 p, .constraint").map (fun e => trimStr e.textContent)
  let constraints := (consTexts.filter constraintQualB).map sanitizeText
  { title :=
      match titleEl with
      | some e => sanitizeText (trimStr e.textContent)
      | none => "Unknown Problem"
    description :=
      match descEl with
      | some e => sanitizeText (takeStr 500 (trimStr e.textContent))
      | none => ""
    examples := examples.take 3
    constraints := constraints.take 5
    url := dom.href
    timestamp := now }

/-- The catch branch of `extractProblemData`. -/
def errorProblemContext (href : String) (now : Nat) : ProblemContext :=
  ⟨"Error extracting problem", "Could not extract problem details", [], [], href, now⟩

/-- `extractProblemData` with its try/catch: a failing page access yields
the placeholder context instead of propagating. -/
def extractProblemData (page : Except String Dom) (href : String) (now : Nat) : ProblemContext :=
  match page with
  | .ok dom => extractCore dom now
  | .error _ => errorProblemContext href now

/-! ## Popup conversation persistence (popup.js, lines 411-438, 516-556) -/

/-- The flat `chrome.storage.local` record. -/
structure StoredRecord where
  conversationHistory : Option (List ConversationEntry)
  problemUrl : Option String
deriving DecidableEq

/-- `popup.js` `addChatMessage`: append, no truncation. -/
def popupAddChatMessage (hist : List ConversationEntry) (msg sender : String)
    (complexity : Option Complexity) (now : Nat) : List ConversationEntry :=
  hist ++ [⟨msg, sender, complexity, now⟩]

/-- `content.js` `addChatMessage`: sanitize and append, then cut the log to
its most recent 40 entries whenever its length exceeds 50. -/
def contentAddChatMessage (hist : List ConversationEntry) (msg sender : String)
    (complexity : Option Complexity) (now : Nat) : List ConversationEntry :=
  let h := hist ++ [⟨sanitizeText msg, sender, complexity, now⟩]
  if 50 < h.length then h.drop (h.length - 40) else h

/-- `popup.js` `loadConversationHistory`: the in-memory history (initially
empty) becomes the stored list and, via `addChatMessage` on each stored
entry with truthy sender and message, a re-stamped copy of each such entry
is appended after it (`forEach` visits only the snapshot of the list taken
before the appends).  Nothing is restored when the stored `problemUrl`
differs from the current problem URL or no list was stored. -/
def loadConversationHistory (stored : StoredRecord) (currentUrl : Option String)
    (now : Nat) : List ConversationEntry :=
  match stored.conversationHistory with
  | none => []
  | some hist =>
    if stored.problemUrl = currentUrl then
      (hist.filter (fun e => e.sender ≠ "" && e.message ≠ "")).foldl
        (fun acc e => popupAddChatMessage acc e.message e.sender e.complexity now) hist
    else []

/-! ## The content script backend fallback (content.js, 63-79 and 676-727)

`callAI` keeps a backend URL; a health-probe failure or any analyze-call
failure (network error, timeout abort, or non-2xx status, all of which
reach the same catch) clears it to `null`, after which every call is served
by the local mock generators without touching the network.  The network is
an oracle supplying the outcome of each attempted request, and `Math.random` of
the chat mock is an oracle natural number. -/

structure AIResponse where
  response : String
  complexity : Option Complexity
deriving DecidableEq

/-- The analyze payload fields the mock generators inspect. -/
structure AIPayload where
  ptype : String
  approach : String
  code : String
  message : String
deriving DecidableEq

def mockApproachHashText : String :=
  "Great thinking! Using a hash map is an excellent approach for this problem.\n\n**Analysis:**\nâœ… **Correctness**: Hash map approach should work well\nâš¡ **Efficiency**: Much better than brute force O(nÂ²)\nðŸ’¾ **Space trade-off**: Uses O(n) extra space for faster lookups\n\n**Questions to consider:**\n- What will you store as keys vs values?\n- How will you handle duplicate elements?\n- Can you solve it in a single pass through the data?\n\nWould you like to discuss the implementation details?"

def mockApproachSortText : String :=
  "Sorting is a solid approach! Let\u0027s analyze this strategy.\n\n**Analysis:**\nâœ… **Correctness**: Sorting often simplifies many problems\nâš¡ **Time Complexity**: Usually O(n log n) due to sorting\nðŸ’¾ **Space**: Can be O(1) if sorting in-place\n\n**Consider:**\n- Does the problem allow modifying the input?\n- Are there faster alternatives without sorting?\n- What happens after sorting - how do you find the answer?"

def mockApproachDefaultText : String :=
  "Interesting approach! Let\u0027s think through this step by step.\n\n**Let\u0027s analyze:**\n- What\u0027s the main operation you need to repeat?\n- How many times will you perform this operation?\n- What data structure makes this operation fastest?\n\nCan you walk me through your specific algorithmic steps? I\u0027d love to help you optimize it!"

def mockCodeNestedText : String :=
  "I see nested loops! Let\u0027s work on optimizing this.\n\n**Code Review:**\nðŸ” **Structure**: Nested loops typically indicate O(nÂ²) complexity\nâš\u00a0ï¸ **Performance**: Could be slow for large inputs (n > 10â´)\n\n**Optimization strategies:**\n- Can you eliminate the inner loop with a hash map?\n- Are you doing redundant calculations?\n- Could sorting help reduce complexity?\n\n**Next steps:**\nWhat specific operation is the inner loop performing? There might be a more efficient way to achieve the same result."

def mockCodeRecursiveText : String :=
  "Nice recursive solution! Let\u0027s check the efficiency.\n\n**Recursion Analysis:**\nðŸ”„ **Structure**: Recursive approach detected\nðŸ’­ **Consider**: Stack space and potential exponential time\nâš¡ **Optimization**: Might benefit from memoization\n\n**Questions:**\n- Are you solving overlapping subproblems?\n- What\u0027s your base case?\n- Could dynamic programming help?"

def mockCodeDefaultText : String :=
  "Let me review your code structure.\n\n**Initial Analysis:**\nâœ… **Logic flow**: Appears to follow a reasonable structure\nðŸ” **Edge cases**: Let\u0027s make sure all scenarios are handled\nâš¡ **Optimization**: Always room for improvement!\n\n**Questions:**\n- How does your solution handle edge cases (empty input, single element)?\n- What\u0027s the bottleneck operation in your algorithm?\n- Are there any unnecessary operations we can eliminate?\n\nFeel free to walk me through your logic!"

def mockChatResponses : List String := [
  "Great question! What edge cases are you considering?",
  "You\u0027re thinking in the right direction! How would you handle the worst-case scenario?",
  "Interesting point! What\u0027s the trade-off between time and space complexity here?",
  "Good observation! Can you think of a way to optimize this further?",
  "That\u0027s a smart approach! Have you considered what happens with duplicate values?",
  "Excellent thinking! How would this scale with very large inputs?"
]

/-- `generateMockApproachAnalysis` of content.js. -/
def generateMockApproachAnalysis (p : AIPayload) : AIResponse :=
  let approach := lowerStr p.approach
  if strIncludes approach "hash" || strIncludes approach "map" then
    ⟨mockApproachHashText, some ⟨"O(n)", "O(n)"⟩⟩
  else if strIncludes approach "sort" || strIncludes approach "sorted" then
    ⟨mockApproachSortText, some ⟨"O(n log n)", "O(1)"⟩⟩
  else
    ⟨mockApproachDefaultText, some ⟨"O(?)", "O(?)"⟩⟩

/-- `code.match(/for.*for/s)` is non-null iff `for` occurs at two positions
at least three apart (`/s`: the dot crosses newlines). -/
def hasForFor : List Char → Bool
  | [] => false
  | c :: rest =>
    if litPrefix ['f', 'o', 'r'] (c :: rest) then
      hasSub ['f', 'o', 'r'] ((c :: rest).drop 3)
    else
      hasForFor rest

/-- `generateMockCodeAnalysis` of content.js. -/
def generateMockCodeAnalysis (p : AIPayload) : AIResponse :=
  let code := lowerStr p.code
  if strIncludes code "for" && hasForFor code.data then
    ⟨mockCodeNestedText, some ⟨"O(nÂ²)", "O(1)"⟩⟩
  else if strIncludes code "recursive"
      || (strIncludes code "def" && strIncludes code "return" && strIncludes code "(") then
    ⟨mockCodeRecursiveText, some ⟨"O(?)", "O(?)"⟩⟩
  else
    ⟨mockCodeDefaultText, some ⟨"O(?)", "O(?)"⟩⟩

/-- `generateMockChatResponse`: a pick from the six canned lines, the
random index supplied by the oracle. -/
def generateMockChatResponse (rand : Nat) : AIResponse :=
  ⟨mockChatResponses.getD (rand % 6) "", none⟩

/-- `getMockResponse` of content.js (the artificial delay is not modelled;
the generators are total so its catch is dead). -/
def getMockResponse (p : AIPayload) (rand : Nat) : AIResponse :=
  if p.ptype = "approach_analysis" then generateMockApproachAnalysis p
  else if p.ptype = "code_analysis" then generateMockCodeAnalysis p
  else generateMockChatResponse rand

/-- The outcome of one attempted network request: a parsed 2xx reply, or
any failure (network error, timeout abort, non-2xx status). -/
inductive FetchOutcome where
  | ok (resp : AIResponse)
  | fail
deriving DecidableEq

/-- The observable result of one `callAI` invocation. -/
structure CallResult where
  newBackend : Option String
  resp : AIResponse
  networkUsed : Bool
deriving DecidableEq

/-- One `callAI` invocation: with a backend URL set, issue the request and
on failure clear the URL and fall through to the mock; with no URL, answer
from the mock without any request. -/
def callAIStep (backendUrl : Option String) (net : FetchOutcome) (p : AIPayload)
    (rand : Nat) : CallResult :=
  match backendUrl with
  | some url =>
    match net with
    | .ok data => ⟨some url, data, true⟩
    | .fail => ⟨none, getMockResponse p rand, true⟩
  | none => ⟨none, getMockResponse p rand, false⟩

/-- `testBackendConnection`: a failed health probe clears the backend URL;
a successful one leaves it unchanged. -/
def testBackendStep (backendUrl : Option String) (net : FetchOutcome) : Option String :=
  match net with
  | .ok _ => backendUrl
  | .fail => none

/-- A session: run `callAI` over a list of invocations, threading the
backend URL; returns the final URL and the response of each call together with
whether that call used the network. -/
def runCalls : Option String → List (AIPayload × FetchOutcome × Nat) →
    Option String × List (AIResponse × Bool)
  | st, [] => (st, [])
  | st, (p, net, r) :: rest =>
    let c := callAIStep st net p r
    let (st2, outs) := runCalls c.newBackend rest
    (st2, (c.resp, c.networkUsed) :: outs)

/-! ## Concrete inputs and containment vocabulary used by the theorems -/

/-- Containment as a substring (what a prompt "contains"). -/
def strContains (hay needle : String) : Prop :=
  needle.data <:+: hay.data

instance strContainsDecidable (hay needle : String) : Decidable (strContains hay needle) :=
  inferInstanceAs (Decidable (needle.data <:+: hay.data))

/-- A 2001-character code input ending in a newline: its tail coincides with
the first character of the truncation marker. -/
def c2codeA : String := ⟨List.replicate 2000 'a'⟩ ++ "\n"

/-- A 2024-character code input whose last 24 characters are the truncation
marker itself. -/
def c2codeB : String := ⟨List.replicate 2000 'a'⟩ ++ truncMarker

/-- A 3000-character code input. -/
def c3000 : String := ⟨List.replicate 3000 'b'⟩

/-- A small distinguishable conversation entry. -/
def demoEntry (i : Nat) : ConversationEntry :=
  ⟨"message", if i % 2 = 0 then "user" else "ai", none, i⟩

/-- Ten prior conversation entries. -/
def demoHistory10 : List ConversationEntry := (List.range 10).map demoEntry

/-- Modelled from the spec, for comparison with `exampleQualB`: a block
qualifies when it holds a marker and its trimmed length lies in the
half-open interval from 10 inclusive to 500 exclusive. -/
def exampleQualSpec (t : String) : Prop :=
  exampleMarkerB t = true ∧ 10 ≤ strLen t ∧ strLen t < 500

/-- A page whose only preformatted block is the 10-character text
`Output: ab` and on which nothing else matches. -/
def dom10 : Dom :=
  ⟨fun _ => none, fun s => if s = "pre, .example" then [⟨"Output: ab"⟩] else [], "u"⟩

/-- A page where the title and description candidates all miss while a
preformatted block and a list item exist but fail the harvest filters. -/
def domC6 : Dom :=
  ⟨fun _ => none,
    fun s =>
      if s = "pre, .example" then [⟨"short"⟩]
      else if s = "ul li, .content__u3I1 p, .constraint" then [⟨"Example list item"⟩]
      else [],
    "https://leetcode.com/problems/two-sum/"⟩

/-! # Theorems

## C1: `extractComplexity` tries the patterns in order with a sentinel -/

theorem searchAux_eq_none (m : Matcher) (s : List Char) (h : searchAux m s = none) :
    ∀ i, m (s.drop i) = none := by
  induction s with
  | nil =>
    intro i
    simp only [searchAux, Option.map_eq_none] at h
    simpa using h
  | cons c rest ih =>
    intro i
    simp only [searchAux] at h
    cases hm : m (c :: rest) with
    | some n => rw [hm] at h; exact absurd h (by simp)
    | none =>
      rw [hm] at h
      cases i with
      | zero => simpa using hm
      | succ j => simpa using ih h j

theorem searchAux_eq_some (m : Matcher) (s out : List Char)
    (h : searchAux m s = some out) :
    ∃ i n, m (s.drop i) = some n ∧ out = (s.drop i).take n := by
  induction s with
  | nil =>
    cases hm : m [] with
    | none => rw [searchAux, hm] at h; exact absurd h (by simp)
    | some n =>
      rw [searchAux, hm] at h
      simp only [Option.map_some'] at h
      exact ⟨0, n, by simpa using hm, by simp [← Option.some_inj.mp h]⟩
  | cons c rest ih =>
    rw [searchAux] at h
    cases hm : m (c :: rest) with
    | some n =>
      rw [hm] at h
      refine ⟨0, n, by simpa using hm, ?_⟩
      simpa using (Option.some_inj.mp h).symm
    | none =>
      rw [hm] at h
      obtain ⟨i, n, hi, hout⟩ := ih h
      exact ⟨i + 1, n, by simpa using hi, by simpa using hout⟩

theorem seqM_some {a b : Matcher} {s : List Char} {n : Nat} (h : seqM a b s = some n) :
    ∃ n1 n2, a s = some n1 ∧ b (s.drop n1) = some n2 ∧ n = n1 + n2 := by
  unfold seqM at h
  cases ha : a s with
  | none => rw [ha] at h; simp at h
  | some n1 =>
    rw [ha] at h
    simp only [Option.some_bind] at h
    cases hb : b (s.drop n1) with
    | none => rw [hb] at h; simp at h
    | some n2 =>
      rw [hb] at h
      simp at h
      exact ⟨n1, n2, rfl, hb, by omega⟩

theorem countWhile_le (p : Char → Bool) (l : List Char) : countWhile p l ≤ l.length := by
  induction l with
  | nil => simp [countWhile]
  | cons c cs ih =>
    simp only [countWhile, List.length_cons]
    split <;> omega

theorem countWhile_take (p : Char → Bool) (l : List Char) (j : Nat) :
    countWhile p (l.take j) = min (countWhile p l) j := by
  induction l generalizing j with
  | nil => simp [countWhile]
  | cons c cs ih =>
    cases j with
    | zero => simp [countWhile]
    | succ j =>
      simp only [List.take_succ_cons, countWhile]
      split <;> [rw [ih]; skip] <;> omega

theorem oTermLen_take {t : List Char} {k : Nat} (h : oTermLen t = some k) :
    ∀ j, k ≤ j → oTermLen (t.take j) = some k := by
  intro j hj
  match t with
  | [] => simp [oTermLen] at h
  | [c1] => simp [oTermLen] at h
  | c1 :: c2 :: rest =>
    simp only [oTermLen] at h
    by_cases hc : ((c1 == 'O' || c1 == 'o') && c2 == '(') = true
    · rw [if_pos hc] at h
      by_cases hm : 1 ≤ countWhile (fun c => c != ')') rest ∧
          countWhile (fun c => c != ')') rest < rest.length
      · rw [if_pos hm] at h
        have hk : k = countWhile (fun c => c != ')') rest + 3 := by
          simpa using h.symm
        have hj2 : 2 ≤ j := by omega
        obtain ⟨j2, rfl⟩ : ∃ j2, j = j2 + 2 := ⟨j - 2, by omega⟩
        have htake : (c1 :: c2 :: rest).take (j2 + 2) = c1 :: c2 :: rest.take j2 := by
          simp [List.take_succ_cons]
        rw [htake]
        simp only [oTermLen, if_pos hc, countWhile_take]
        rw [if_pos ?_]
        · congr 1
          omega
        · constructor
          · omega
          · simp only [List.length_take]
            omega
      · rw [if_neg hm] at h; exact absurd h (by simp)
    · rw [if_neg hc] at h; exact absurd h (by simp)

/-- A matcher every match of which contains a complete `O(...)` term. -/
def GoodPat (p : Matcher) : Prop :=
  ∀ s n, p s = some n → ∃ j k, j + k ≤ n ∧ oTermLen (s.drop j) = some k

theorem goodPat_oTermLen : GoodPat oTermLen := by
  intro s n h
  exact ⟨0, n, by omega, by simpa using h⟩

theorem goodPat_seq (a : Matcher) {b : Matcher} (hb : GoodPat b) : GoodPat (seqM a b) := by
  intro s n h
  obtain ⟨n1, n2, _, h2, rfl⟩ := seqM_some h
  obtain ⟨j, k, hjk, ho⟩ := hb _ _ h2
  refine ⟨n1 + j, k, by omega, ?_⟩
  rw [← List.drop_drop]
  exact ho

theorem goodPat_seq_oFirst (b : Matcher) : GoodPat (seqM oTermLen b) := by
  intro s n h
  obtain ⟨n1, n2, h1, _, rfl⟩ := seqM_some h
  exact ⟨0, n1, by omega, by simpa using h1⟩

theorem goodPat_fieldPatterns (lit : List Char) :
    ∀ p ∈ fieldPatterns lit, GoodPat p := by
  intro p hp
  simp only [fieldPatterns, List.mem_cons, List.not_mem_nil, or_false] at hp
  rcases hp with rfl | rfl | rfl
  · exact goodPat_seq _ (goodPat_seq _ (goodPat_seq _ (goodPat_seq _ goodPat_oTermLen)))
  · exact goodPat_seq _ (goodPat_seq _ goodPat_oTermLen)
  · exact goodPat_seq_oFirst _

theorem oSearch_of_goodPat {p : Matcher} (hp : GoodPat p) {text m0 : List Char}
    (h : searchAux p text = some m0) : ∃ o, oSearch m0 = some o := by
  obtain ⟨i, n, hm, rfl⟩ := searchAux_eq_some p text m0 h
  obtain ⟨j, k, hjk, hoT⟩ := hp _ _ hm
  have hjn : j ≤ n := Nat.le_trans (Nat.le_add_right j k) hjk
  have hkj : k ≤ n - j := Nat.le_sub_of_add_le' hjk
  have htd : ((text.drop i).take n).drop j = ((text.drop i).drop j).take (n - j) := by
    have h2 := List.take_drop j (n - j) (text.drop i)
    rw [Nat.add_sub_cancel' hjn] at h2
    exact h2.symm
  have hsub : oTermLen (((text.drop i).take n).drop j) = some k := by
    rw [htd]
    exact oTermLen_take hoT _ hkj
  cases ho : oSearch ((text.drop i).take n) with
  | some o => exact ⟨o, rfl⟩
  | none => exact absurd hsub (by rw [searchAux_eq_none _ _ ho j]; simp)

theorem tryPats_eq_specField (ps : List Matcher) (text : List Char)
    (hgood : ∀ p ∈ ps, GoodPat p) : tryPats ps text = specField ps text := by
  induction ps with
  | nil => rfl
  | cons p ps ih =>
    have hp : GoodPat p := hgood p (by simp)
    have hps : ∀ q ∈ ps, GoodPat q := fun q hq => hgood q (by simp [hq])
    cases hs : searchAux p text with
    | some m0 =>
      obtain ⟨o, ho⟩ := oSearch_of_goodPat hp hs
      simp [tryPats, specField, firstPatternMatch, hs, ho]
    | none =>
      simpa [tryPats, specField, firstPatternMatch, hs] using ih hps

/-- C1: for every input text, `extractComplexity` tries, for time and space
independently, the three patterns in order and, on the first that matches,
pulls the `O(...)` substring via the secondary regex and stops, the field
being the sentinel `O(?)` when no pattern matches (the behaviour described
by `specField`); in particular the two cited evaluations hold. -/
theorem extractComplexity_ordered_patterns_spec :
    (∀ text : String,
        extractComplexity text =
          { time := ⟨specField (fieldPatterns ['t','i','m','e']) text.data⟩
            space := ⟨specField (fieldPatterns ['s','p','a','c','e']) text.data⟩ })
    ∧ extractComplexity "Time Complexity: O(n log n) ... Space: O(1)" =
        { time := "O(n log n)", space := "O(1)" }
    ∧ extractComplexity "no complexity mentioned" = { time := "O(?)", space := "O(?)" } := by
  refine ⟨fun text => ?_, by decide, by decide⟩
  rw [extractComplexity,
    tryPats_eq_specField _ _ (goodPat_fieldPatterns _),
    tryPats_eq_specField _ _ (goodPat_fieldPatterns _)]

/-! ## C2: code truncation in the `code_analysis` prompt -/

theorem str_data_append (s t : String) : (s ++ t).data = s.data ++ t.data := rfl

/-- C2 counterexample: the claim says the prompt never contains the full
input for code longer than 2000 characters, but for the 2001-character
input `c2codeA` (2000 `a` characters and a newline) the prompt contains the
full input as a substring, the newline aligning with the first marker
character; and for `c2codeB` (2000 `a` characters followed by the marker
text, 2024 characters) the embedded truncated segment is the full input
itself. -/
theorem strLen_mk (l : List Char) : strLen ⟨l⟩ = l.length := rfl

theorem str_data_mk (l : List Char) : (⟨l⟩ : String).data = l := rfl

theorem str_eq_of_data {a b : String} (h : a.data = b.data) : a = b := by
  cases a
  cases b
  exact congrArg String.mk h

theorem len_c2codeA : strLen c2codeA = 2001 := by
  show (List.replicate 2000 'a' ++ "\n".data).length = 2001
  rw [List.length_append, List.length_replicate]
  decide

theorem len_c2codeB : strLen c2codeB = 2024 := by
  show (List.replicate 2000 'a' ++ truncMarker.data).length = 2024
  rw [List.length_append, List.length_replicate]
  decide

theorem take2000_replicate_append (tail : List Char) :
    (List.replicate 2000 'a' ++ tail).take 2000 = List.replicate 2000 'a' :=
  List.take_left' (List.length_replicate 2000 'a')

theorem codeAnalysisPrompt_contains_full_input :
    (2000 < strLen c2codeA ∧
      codeAnalysisPrompt "Two Sum" "desc" c2codeA =
        (codeTpl0 ++ "Two Sum" ++ codeTpl1 ++ "desc" ++ codeTpl2)
          ++ c2codeA ++ ("// ... (code truncated)" ++ codeTpl3))
    ∧ (2000 < strLen c2codeB ∧ truncatedCode c2codeB = c2codeB) := by
  have hA : 2000 < strLen c2codeA := by rw [len_c2codeA]; decide
  have hB : 2000 < strLen c2codeB := by rw [len_c2codeB]; decide
  have htakeA : takeStr 2000 c2codeA = ⟨List.replicate 2000 'a'⟩ :=
    congrArg String.mk (take2000_replicate_append _)
  have htakeB : takeStr 2000 c2codeB = ⟨List.replicate 2000 'a'⟩ :=
    congrArg String.mk (take2000_replicate_append _)
  have hmarker : truncMarker.data = "\n".data ++ "// ... (code truncated)".data := by decide
  refine ⟨⟨hA, ?_⟩, ⟨hB, ?_⟩⟩
  · rw [codeAnalysisPrompt, truncatedCode, if_pos hA, htakeA]
    apply str_eq_of_data
    simp only [c2codeA, str_data_append, str_data_mk, hmarker, List.append_assoc]
  · rw [truncatedCode, if_pos hB, htakeB]
    rfl

/-- C2 amended: for code longer than 2000 characters the prompt embeds, in
the code slot, exactly the first 2000 characters followed by the truncation
marker (so a 3000-character input yields its first 2000 characters plus the
marker); for code of length at most 2000 the code is embedded unchanged
with no marker.  The full input is not embedded, but—contrary to the
original claim—it can still occur as a substring of the prompt when its
trailing characters coincide with the marker and the following template
text, as `codeAnalysisPrompt_contains_full_input` shows. -/
theorem codeAnalysisPrompt_truncation :
    ∀ title description code : String,
      (2000 < strLen code →
        codeAnalysisPrompt title description code =
          codeTpl0 ++ title ++ codeTpl1 ++ description ++ codeTpl2
            ++ (takeStr 2000 code ++ truncMarker) ++ codeTpl3)
      ∧ (strLen code ≤ 2000 →
        codeAnalysisPrompt title description code =
          codeTpl0 ++ title ++ codeTpl1 ++ description ++ codeTpl2 ++ code ++ codeTpl3) := by
  refine fun t d c => ⟨fun h => ?_, fun h => ?_⟩
  · rw [codeAnalysisPrompt, truncatedCode, if_pos h]
  · rw [codeAnalysisPrompt, truncatedCode, if_neg (by omega)]

set_option maxRecDepth 100000 in
theorem len_c3000 : strLen c3000 = 3000 := List.length_replicate 3000 'b'

theorem codeAnalysisPrompt_truncation_witness :
    2000 < strLen c3000 ∧
      codeAnalysisPrompt "Two Sum" "d" c3000 =
        codeTpl0 ++ "Two Sum" ++ codeTpl1 ++ "d" ++ codeTpl2
          ++ (takeStr 2000 c3000 ++ truncMarker) ++ codeTpl3 :=
  ⟨by rw [len_c3000]; decide,
    (codeAnalysisPrompt_truncation "Two Sum" "d" c3000).1 (by rw [len_c3000]; decide)⟩

/-! ## C3: history windowing in the `chat_followup` prompt -/

theorem recentWindow_idem (history : List ConversationEntry) :
    recentWindow (recentWindow history) = recentWindow history := by
  have h0 : (history.drop (history.length - 6)).length - 6 = 0 := by
    rw [List.length_drop]
    omega
  rw [recentWindow, recentWindow, h0, List.drop_zero]

/-- C3: the `chat_followup` prompt depends only on the most recent 6
history entries (all of them when the list is shorter); the window has
exactly `min 6` length; the prompt embeds the rendered window joined by
blank lines between the fixed template pieces; each rendered entry is its
sender label, the message cut to 200 characters, and an ellipsis exactly
when the message exceeds 200 characters; and of 10 prior entries exactly
the last 6 are embedded. -/
theorem chatFollowupPrompt_history_window :
    (∀ (title msg : String) (history : List ConversationEntry),
        chatFollowupPrompt title msg history
            = chatFollowupPrompt title msg (recentWindow history)
        ∧ (recentWindow history).length = min 6 history.length
        ∧ chatFollowupPrompt title msg history
            = chatTpl0 ++ title ++ chatTpl1
              ++ joinSep "\n\n" ((recentWindow history).map renderHistoryEntry)
              ++ chatTpl2 ++ msg ++ chatTpl3)
    ∧ (∀ h : ConversationEntry,
        renderHistoryEntry h
          = (if h.sender = "user" then studentLabel else coachLabel) ++ ": "
            ++ takeStr 200 h.message
            ++ (if 200 < strLen h.message then "..." else "")
        ∧ strLen (takeStr 200 h.message) ≤ 200)
    ∧ recentWindow demoHistory10
        = [demoEntry 4, demoEntry 5, demoEntry 6, demoEntry 7, demoEntry 8, demoEntry 9] := by
  refine ⟨fun title msg history => ⟨?_, ?_, rfl⟩, fun h => ⟨rfl, ?_⟩, by decide⟩
  · rw [chatFollowupPrompt, chatFollowupPrompt, recentMessages, recentMessages,
      recentWindow_idem]
  · rw [recentWindow, List.length_drop]
    omega
  · exact List.length_take_le _ _

/-! ## C4: problem title and no-solution instructions in the prompts -/

theorem strContains_expl {n hay : String} (s t : List Char)
    (h : hay.data = s ++ n.data ++ t) : strContains hay n :=
  ⟨s, t, h.symm⟩

theorem strContains_of_part {hay part n : String} (h1 : strContains part n)
    (s t : List Char) (h2 : hay.data = s ++ part.data ++ t) : strContains hay n :=
  h1.trans ⟨s, t, h2.symm⟩

set_option maxRecDepth 4000 in
/-- C4 counterexample: no single no-solution instruction string is shared
verbatim by the three templates: the chat prompt contains neither the
phrase quoted by the claim nor the approach template wording. -/
theorem prompts_lack_common_no_solution_string :
    ¬ strContains (chatFollowupPrompt "Two Sum" "" []) "do not reveal a full solution"
    ∧ ¬ strContains (chatFollowupPrompt "Two Sum" "" []) "do not reveal the full solution" := by
  constructor <;> decide

/-- C4 amended: every prompt of the three request variants contains the
problem title verbatim, and each contains an explicit instruction not to
give away the solution — but the wording differs per template (`do not
reveal the full solution` / `without giving a complete solution` / `avoid
giving direct solutions`); no single instruction string is common to all
three. -/
theorem prompts_title_and_no_solution_instructions :
    ∀ (title description approach code msg : String) (history : List ConversationEntry),
      strContains (approachAnalysisPrompt title description approach) title
      ∧ strContains (codeAnalysisPrompt title description code) title
      ∧ strContains (chatFollowupPrompt title msg history) title
      ∧ strContains (approachAnalysisPrompt title description approach)
          "do not reveal the full solution"
      ∧ strContains (codeAnalysisPrompt title description code)
          "without giving a complete solution"
      ∧ strContains (chatFollowupPrompt title msg history)
          "avoid giving direct solutions" := by
  intro title description approach code msg history
  refine ⟨?_, ?_, ?_, ?_, ?_, ?_⟩
  · exact strContains_expl approachTpl0.data
      (approachTpl1 ++ description ++ approachTpl2 ++ approach ++ approachTpl3).data
      (by simp [approachAnalysisPrompt, str_data_append, List.append_assoc])
  · exact strContains_expl codeTpl0.data
      (codeTpl1 ++ description ++ codeTpl2 ++ truncatedCode code ++ codeTpl3).data
      (by simp [codeAnalysisPrompt, str_data_append, List.append_assoc])
  · exact strContains_expl chatTpl0.data
      (chatTpl1 ++ recentMessages history ++ chatTpl2 ++ msg ++ chatTpl3).data
      (by simp [chatFollowupPrompt, str_data_append, List.append_assoc])
  · exact strContains_expl
      (approachTpl0 ++ title ++ approachTpl1 ++ description ++ approachTpl2 ++ approach
        ++ approachTpl3a).data
      ".".data
      (by simp [approachAnalysisPrompt, approachTpl3, str_data_append, List.append_assoc])
  · exact strContains_expl
      (codeTpl0 ++ title ++ codeTpl1 ++ description ++ codeTpl2 ++ truncatedCode code
        ++ codeTpl3a).data
      codeTpl3b.data
      (by simp [codeAnalysisPrompt, codeTpl3, str_data_append, List.append_assoc])
  · exact strContains_expl
      (chatTpl0 ++ title ++ chatTpl1 ++ recentMessages history ++ chatTpl2 ++ msg
        ++ chatTpl3a).data
      chatTpl3b.data
      (by simp [chatFollowupPrompt, chatTpl3, str_data_append, List.append_assoc])

/-! ## C5: upstream-error classification of the relay -/

/-- C5: an upstream error whose message contains `API key` is answered 401
with the fixed remediation message and no fallback; otherwise, one whose
message contains `quota` is answered 429 with the fixed rate-limit message
and a non-empty canned fallback; any other error is answered 500 with the
raw upstream message and a different non-empty canned fallback. -/
theorem classifyUpstreamError_spec :
    ∀ msg : String,
      (strIncludes msg "API key" = true →
        classifyUpstreamError msg = ⟨401, "Invalid API key", apiKeyRemediation, none⟩)
      ∧ (strIncludes msg "API key" = false → strIncludes msg "quota" = true →
        classifyUpstreamError msg
            = ⟨429, "Rate limit exceeded", quotaMessage, some quotaFallback⟩
          ∧ quotaFallback ≠ "")
      ∧ (strIncludes msg "API key" = false → strIncludes msg "quota" = false →
        classifyUpstreamError msg = ⟨500, "AI service error", msg, some techFallback⟩
          ∧ techFallback ≠ "" ∧ techFallback ≠ quotaFallback) := by
  intro msg
  refine ⟨fun h1 => ?_, fun h1 h2 => ⟨?_, by decide⟩, fun h1 h2 => ⟨?_, by decide, by decide⟩⟩
  · rw [classifyUpstreamError, if_pos h1]
  · rw [classifyUpstreamError, if_neg (by simp [h1]), if_pos h2]
  · rw [classifyUpstreamError, if_neg (by simp [h1]), if_neg (by simp [h2])]

theorem classifyUpstreamError_spec_witness :
    (strIncludes "You exceeded your quota." "API key" = false
      ∧ strIncludes "You exceeded your quota." "quota" = true
      ∧ classifyUpstreamError "You exceeded your quota."
          = ⟨429, "Rate limit exceeded", quotaMessage, some quotaFallback⟩)
    ∧ (strIncludes "boom" "API key" = false ∧ strIncludes "boom" "quota" = false
      ∧ classifyUpstreamError "boom" = ⟨500, "AI service error", "boom", some techFallback⟩) :=
  ⟨⟨by decide, by decide,
      (((classifyUpstreamError_spec "You exceeded your quota.").2.1) (by decide) (by decide)).1⟩,
    ⟨by decide, by decide,
      (((classifyUpstreamError_spec "boom").2.2) (by decide) (by decide)).1⟩⟩

/-! ## C6: scraper defaults and the no-throw policy -/

/-- C6: on every page where none of the title or description selector
candidates matches, no preformatted block passes the example filter and no
element passes the constraint filter — the elements may well exist —
extraction yields the context with title `Unknown Problem`, empty
description, no examples and no constraints; and an exception during
extraction is caught and yields the diagnostic placeholder context instead
of propagating. -/
theorem extractProblemData_defaults_and_no_throw :
    (∀ (dom : Dom) (now : Nat),
      (∀ s ∈ titleSelectors, dom.query s = none) →
      (∀ s ∈ descSelectors, dom.query s = none) →
      (∀ e ∈ dom.queryAll "pre, .example",
        exampleQualB (trimStr e.textContent) = false) →
      (∀ e ∈ dom.queryAll "ul li, .content__u3I1 p, .constraint",
        constraintQualB (trimStr e.textContent) = false) →
        extractCore dom now = ⟨"Unknown Problem", "", [], [], dom.href, now⟩)
    ∧ (∀ (e href : String) (now : Nat),
        extractProblemData (.error e) href now
          = ⟨"Error extracting problem", "Could not extract problem details", [], [],
              href, now⟩) := by
  constructor
  · intro dom now htq hdq hex hcon
    have hsel : ∀ sels, (∀ s ∈ sels, dom.query s = none) → selectLoop dom sels = none := by
      intro sels
      induction sels with
      | nil => intro _; rfl
      | cons s rest ih =>
        intro hq
        cases rest with
        | nil => exact hq s (by simp)
        | cons s2 r2 =>
          rw [selectLoop, hq s (by simp)]
          exact ih (fun x hx => hq x (by simp [hx]))
    have hexset : ((dom.queryAll "pre, .example").map
        (fun e => trimStr e.textContent)).filter exampleQualB = [] := by
      rw [List.filter_eq_nil_iff]
      intro t ht
      simp only [List.mem_map] at ht
      obtain ⟨e, he, rfl⟩ := ht
      simp [hex e he]
    have hconset : ((dom.queryAll "ul li, .content__u3I1 p, .constraint").map
        (fun e => trimStr e.textContent)).filter constraintQualB = [] := by
      rw [List.filter_eq_nil_iff]
      intro t ht
      simp only [List.mem_map] at ht
      obtain ⟨e, he, rfl⟩ := ht
      simp [hcon e he]
    simp only [extractCore, hsel titleSelectors htq, hsel descSelectors hdq,
      hexset, hconset, List.map_nil, List.take_nil]
  · intro e href now
    rfl

theorem extractProblemData_defaults_witness :
    extractCore domC6 7
        = ⟨"Unknown Problem", "", [], [],
            "https://leetcode.com/problems/two-sum/", 7⟩
    ∧ extractProblemData (.error "boom") "u" 3
        = ⟨"Error extracting problem", "Could not extract problem details", [], [], "u", 3⟩ :=
  ⟨extractProblemData_defaults_and_no_throw.1 domC6 7
      (by decide) (by decide) (by decide) (by decide),
    extractProblemData_defaults_and_no_throw.2 "boom" "u" 3⟩

/-! ## C7: the example-harvesting filter -/

/-- C7 counterexample: the 10-character block `Output: ab` holds a marker
and its trimmed length lies in the claimed interval from 10 inclusive to
500 exclusive, it is the only (hence first) preformatted block of `dom10`,
yet the scraper's examples list is empty: the code requires length
strictly greater than 10. -/
theorem examples_exclude_length10_block :
    exampleQualSpec "Output: ab"
    ∧ dom10.queryAll "pre, .example" = [⟨"Output: ab"⟩]
    ∧ trimStr "Output: ab" = "Output: ab"
    ∧ (extractCore dom10 0).examples = [] := by
  refine ⟨⟨by decide, by decide, by decide⟩, rfl, by decide, by decide⟩

/-- C7 amended: the examples field consists exactly of the first 3 (at
most) preformatted blocks, in document order, whose text contains one of
the literal markers and whose trimmed length lies strictly between 10 and
500 — that is, in the interval from 11 inclusive to 500 exclusive; a block
of trimmed length exactly 10 is excluded. -/
theorem extractCore_examples_spec :
    ∀ (dom : Dom) (now : Nat),
      (extractCore dom now).examples
        = ((((dom.queryAll "pre, .example").map (fun e => trimStr e.textContent)).filter
              (fun t => exampleMarkerB t && decide (11 ≤ strLen t)
                && decide (strLen t < 500))).map sanitizeText).take 3
      ∧ (extractCore dom now).examples.length ≤ 3 := by
  intro dom now
  have hpred : ∀ t : String,
      exampleQualB t
        = (exampleMarkerB t && decide (11 ≤ strLen t) && decide (strLen t < 500)) := by
    intro t
    rw [exampleQualB, show (decide (10 < strLen t)) = (decide (11 ≤ strLen t)) from
      decide_eq_decide.mpr (by omega)]
  have hx : (extractCore dom now).examples
      = ((((dom.queryAll "pre, .example").map (fun e => trimStr e.textContent)).filter
            exampleQualB).map sanitizeText).take 3 := rfl
  constructor
  · rw [hx, List.filter_congr (fun x _ => hpred x)]
  · rw [hx]
    exact List.length_take_le _ _

/-! ## C8: persisted history is restored only for the same problem URL -/

theorem popupFold_eq (now : Nat) (l init : List ConversationEntry) :
    l.foldl (fun acc e => popupAddChatMessage acc e.message e.sender e.complexity now) init
      = init ++ l.map (fun e => ⟨e.message, e.sender, e.complexity, now⟩) := by
  induction l generalizing init with
  | nil => simp
  | cons e rest ih => rw [List.foldl_cons, ih]; simp [popupAddChatMessage]

/-- C8: persisted entries are loaded back into the in-memory history only
when the persisted problem URL equals the current problem URL; on a
mismatch nothing is restored, and every restored entry carries the message,
sender and complexity of some persisted entry. -/
theorem loadConversationHistory_url_guard :
    ∀ (stored : StoredRecord) (currentUrl : Option String) (now : Nat),
      (stored.problemUrl ≠ currentUrl → loadConversationHistory stored currentUrl now = [])
      ∧ (∀ e, e ∈ loadConversationHistory stored currentUrl now →
          stored.problemUrl = currentUrl
          ∧ ∃ hist e0, stored.conversationHistory = some hist ∧ e0 ∈ hist
              ∧ e.message = e0.message ∧ e.sender = e0.sender
              ∧ e.complexity = e0.complexity) := by
  rintro ⟨ch, pu⟩ currentUrl now
  constructor
  · intro hne
    cases ch with
    | none => rfl
    | some hist => simp only [loadConversationHistory, if_neg hne]
  · intro e he
    cases ch with
    | none => exact absurd he (by simp [loadConversationHistory])
    | some hist =>
      by_cases hurl : pu = currentUrl
      · simp only [loadConversationHistory, if_pos hurl, popupFold_eq,
          List.mem_append] at he
        refine ⟨hurl, hist, ?_⟩
        rcases he with he | he
        · exact ⟨e, rfl, he, rfl, rfl, rfl⟩
        · simp only [List.mem_map] at he
          obtain ⟨e0, he0, rfl⟩ := he
          exact ⟨e0, rfl, List.mem_of_mem_filter he0, rfl, rfl, rfl⟩
      · exact absurd he (by simp [loadConversationHistory, if_neg hurl])

theorem loadConversationHistory_url_guard_witness :
    (⟨some [demoEntry 0], some "u1"⟩ : StoredRecord).problemUrl ≠ some "u2"
    ∧ loadConversationHistory ⟨some [demoEntry 0], some "u1"⟩ (some "u2") 9 = [] :=
  ⟨by decide, (loadConversationHistory_url_guard _ _ 9).1 (by decide)⟩

/-! ## C9: bounding the conversation log -/

/-- C9 counterexample: the popup controller's `addChatMessage` never
truncates: appending to a 50-entry log leaves 51 entries, violating the
claimed bound of 50 for every message-adding operation.  Only the content
script's `addChatMessage` enforces the bound. -/
theorem popupAddChatMessage_unbounded :
    (List.replicate 50 (demoEntry 0)).length = 50
    ∧ (popupAddChatMessage (List.replicate 50 (demoEntry 0)) "hi" "user" none 0).length = 51
    ∧ ¬ (51 ≤ 50) := by
  refine ⟨List.length_replicate .., ?_, by decide⟩
  rw [popupAddChatMessage, List.length_append, List.length_replicate]
  rfl

/-- C9 amended: the content script's `addChatMessage` keeps the log at no
more than 50 entries, cutting it back to exactly the most recent 40
whenever an append would exceed 50 (the result is always a suffix of the
appended log); the popup's `addChatMessage` appends without any
truncation, so the 40-50 bound holds only for the content-script log. -/
theorem addChatMessage_bounds :
    ∀ (hist : List ConversationEntry) (msg sender : String) (c : Option Complexity)
      (now : Nat),
      (contentAddChatMessage hist msg sender c now).length ≤ 50
      ∧ (50 ≤ hist.length → (contentAddChatMessage hist msg sender c now).length = 40)
      ∧ contentAddChatMessage hist msg sender c now
          <:+ hist ++ [⟨sanitizeText msg, sender, c, now⟩]
      ∧ popupAddChatMessage hist msg sender c now = hist ++ [⟨msg, sender, c, now⟩] := by
  intro hist msg sender c now
  have hlen : (hist ++ [(⟨sanitizeText msg, sender, c, now⟩ : ConversationEntry)]).length
      = hist.length + 1 := by
    rw [List.length_append]
    rfl
  by_cases hc : 50 < (hist ++ [(⟨sanitizeText msg, sender, c, now⟩ : ConversationEntry)]).length
  · have hres : contentAddChatMessage hist msg sender c now
        = (hist ++ [(⟨sanitizeText msg, sender, c, now⟩ : ConversationEntry)]).drop
            ((hist ++ [(⟨sanitizeText msg, sender, c, now⟩ : ConversationEntry)]).length
              - 40) := by
      simp only [contentAddChatMessage, if_pos hc]
    refine ⟨?_, fun _ => ?_, ?_, rfl⟩
    · rw [hres, List.length_drop]
      omega
    · rw [hres, List.length_drop]
      omega
    · rw [hres]
      exact List.drop_suffix _ _
  · have hres : contentAddChatMessage hist msg sender c now
        = hist ++ [(⟨sanitizeText msg, sender, c, now⟩ : ConversationEntry)] := by
      simp only [contentAddChatMessage, if_neg hc]
    refine ⟨?_, fun h50 => ?_, ?_, rfl⟩
    · rw [hres]
      omega
    · rw [hres] at *
      omega
    · rw [hres]

theorem addChatMessage_bounds_witness :
    50 ≤ (List.replicate 50 (demoEntry 0)).length
    ∧ (contentAddChatMessage (List.replicate 50 (demoEntry 0)) "hi" "user" none 0).length
        = 40 :=
  ⟨by decide, (addChatMessage_bounds _ "hi" "user" none 0).2.1 (by decide)⟩

/-! ## C10: after one backend failure every later call is a local mock -/

/-- C10: a failed analyze call clears the backend URL (while that call did
go to the network); a failed health probe clears it too; and from a cleared
URL every subsequent `callAI` invocation of the session returns the locally
generated mock response for its payload and never issues a network request,
the URL remaining cleared — the backend is never retried. -/
theorem callAI_mock_after_failure :
    (∀ (url : String) (p : AIPayload) (rand : Nat),
        callAIStep (some url) .fail p rand = ⟨none, getMockResponse p rand, true⟩)
    ∧ (∀ st : Option String, testBackendStep st .fail = none)
    ∧ (∀ calls : List (AIPayload × FetchOutcome × Nat),
        runCalls none calls
          = (none, calls.map (fun c => (getMockResponse c.1 c.2.2, false)))) := by
  refine ⟨fun url p rand => rfl, fun st => rfl, fun calls => ?_⟩
  induction calls with
  | nil => rfl
  | cons c rest ih =>
    obtain ⟨p, net, r⟩ := c
    simp only [runCalls, callAIStep, ih, List.map_cons]

end DSACoach
